import Mathlib

/-!
Verification of the API Response Logger repository (monitor.py, analyzer.py)
against its natural-language specification.

The Python source is shallowly embedded: every dict-shaped record becomes a
Lean structure, Python `None` becomes `Option.none`, Python numbers become
exact rationals (`ℚ`; the source's IEEE floats are modelled by exact rational
arithmetic, and every theorem below avoids inputs whose behaviour would be
sensitive to the float/rational distinction), and the single piece of mutable
state (`self.api_states`) becomes an explicit association list threaded
through the functions that touch it.
-/

/-- Models Python `round(x, 2)`: round to two decimal places, ties to even
(banker's rounding), computed exactly on rationals. -/
def roundHalfEven (x : ℚ) : ℤ :=
  if x - ⌊x⌋ < 1/2 then ⌊x⌋
  else if 1/2 < x - ⌊x⌋ then ⌊x⌋ + 1
  else if ⌊x⌋ % 2 = 0 then ⌊x⌋ else ⌊x⌋ + 1

/-- Python `round(x, 2)` on a rational. -/
def round2 (x : ℚ) : ℚ := (roundHalfEven (x * 100) : ℚ) / 100

/-- Models the Check Result dict built by `APIMonitor.check_api`
(monitor.py lines 49-58) and parsed back by the analyzer: the eight fixed
keys of the log record.  `none` models Python `None` / JSON `null`. -/
structure CheckResult where
  name : String
  url : String
  timestamp : String
  status : String
  response_time : Option ℚ
  status_code : Option ℤ
  error : Option String
  response_hash : Option String
deriving DecidableEq, Repr

/-- Models `self.api_states`: a mapping from endpoint name to its
`{'last_hash': ...}` entry.  Each entry's inner dict always holds exactly
the key `last_hash`, so the entry is modelled as the stored hash string. -/
abbrev ApiStates := List (String × String)

/-- Dictionary lookup `api_name in self.api_states` /
`self.api_states[api_name]`. -/
def lookupState : ApiStates → String → Option String
  | [], _ => none
  | (m, v) :: rest, n => if m = n then some v else lookupState rest n

/-- Dictionary write `self.api_states[api_name] = {'last_hash': h}`:
overwrite the existing entry, or insert a fresh one. -/
def updState : ApiStates → String → String → ApiStates
  | [], n, h => [(n, h)]
  | (m, v) :: rest, n, h =>
    if m = n then (m, h) :: rest else (m, v) :: updState rest n h

/-- Models `APIMonitor.detect_changes` (monitor.py lines 96-111).
Returns the boolean result together with the updated `api_states`.
Note the source's truthiness test `if last_hash and last_hash != current_hash`:
a stored empty string is falsy, so it never reports a change. -/
def detect_changes (states : ApiStates) (api_name : String)
    (current_hash : Option String) : Bool × ApiStates :=
  match current_hash with
  | none => (false, states)
  | some h =>
    match lookupState states api_name with
    | none => (false, updState states api_name h)
    | some last_hash =>
      if last_hash ≠ "" ∧ last_hash ≠ h then (true, updState states api_name h)
      else (false, updState states api_name h)

/-- Python f-string interpolation of an `Optional[str]`: `None` prints as
the text `None`. -/
def pyStr : Option String → String
  | none => "None"
  | some s => s

/-- Rendering of a response time inside an alert message.  The Python source
interpolates a float; the exact decimal formatting is abstracted by Lean's
rational `toString` (no theorem below depends on this text). -/
def showRat (q : ℚ) : String := toString q

/-- Models the thresholds configuration `self.config.get('thresholds', {})`:
each key may be absent, in which case `analyze_result` falls back to the
defaults 2000 (warning) and 5000 (critical). -/
structure Thresholds where
  response_time_warning : Option ℚ
  response_time_critical : Option ℚ
deriving DecidableEq, Repr

/-- An emitted alert: message text and level string
(`"info"`, `"warning"` or `"critical"`), exactly as passed to
`APIMonitor.alert`. -/
abbrev Alert := String × String

/-- Models `APIMonitor.analyze_result` (monitor.py lines 144-184): from a
Check Result, the thresholds configuration and the current `api_states`,
the list of alerts emitted (in emission order) and the updated state.
Python truthiness is kept: the latency tier runs only under
`if response_time:` (absent or zero response time emits nothing), and the
change check runs only under `if response_hash and detect_changes(...)`
(absent or empty hash short-circuits, leaving the state untouched). -/
def analyze_result (th : Thresholds) (states : ApiStates) (r : CheckResult) :
    List Alert × ApiStates :=
  if r.status = "down" then
    ([("🔴 " ++ r.name ++ " is DOWN! Error: " ++ pyStr r.error, "critical")], states)
  else if r.status = "error" then
    ([("⚠️  " ++ r.name ++ " returned an error: " ++ pyStr r.error, "warning")], states)
  else if r.status = "up" then
    let latency : List Alert :=
      match r.response_time with
      | some rt =>
        if rt = 0 then []
        else
          let critical_threshold := th.response_time_critical.getD 5000
          let warning_threshold := th.response_time_warning.getD 2000
          if critical_threshold < rt then
            [("🐌 " ++ r.name ++ " is VERY SLOW! Response time: " ++ showRat rt ++ "ms", "critical")]
          else if warning_threshold < rt then
            [("⏱️  " ++ r.name ++ " is slow. Response time: " ++ showRat rt ++ "ms", "warning")]
          else
            [("✅ " ++ r.name ++ " is healthy. Response time: " ++ showRat rt ++ "ms", "info")]
      | none => []
    match r.response_hash with
    | some h =>
      if h = "" then (latency, states)
      else
        let res := detect_changes states r.name (some h)
        if res.1 then
          (latency ++ [("🔄 " ++ r.name ++ " response structure has CHANGED!", "warning")], res.2)
        else (latency, res.2)
    | none => (latency, states)
  else ([], states)

/-- Models `APIMonitor.get_response_hash` (monitor.py lines 37-39), the
content fingerprint of a response body.  The md5 algorithm itself is not
reproduced; a deterministic stand-in digest is used — no claim below depends
on the digest values, only on the presence and (in)equality of
fingerprints. -/
def get_response_hash (response_data : String) : String :=
  String.mk (Nat.toDigits 16
    (response_data.toList.foldl (fun a c => (a * 131 + c.toNat) % (2 ^ 128)) 7))

/-- The part of an Endpoint Configuration consumed by `check_api`
(monitor.py lines 43-47): `none` fields model absent JSON keys, resolved by
`.get(..., default)` at use sites. -/
structure ApiConfig where
  name : Option String
  url : String
  expected_status : Option ℤ
  check_response_structure : Option Bool
deriving DecidableEq, Repr

/-- The outcome of the single `requests.request(...)` call inside
`check_api`: a timeout, a connection failure, any other exception (with its
description `str(e)`), or a received response with its HTTP status code,
elapsed wall-clock seconds, and body text. -/
inductive RequestOutcome where
  | timeout
  | connectionError
  | otherFailure (description : String)
  | response (status_code : ℤ) (elapsed_s : ℚ) (body : String)
deriving DecidableEq, Repr

/-- Models `APIMonitor.check_api` (monitor.py lines 41-94).  The HTTP call
itself is the nondeterministic input `out`; the function is total, which
embeds the source's property that every outcome of the request is absorbed
into a status value and never re-raised.  On a received response the elapsed
seconds are converted to milliseconds and rounded to two decimals, and the
fingerprint is attached for any received response when
`check_response_structure` is enabled, whatever the status. -/
def check_api (cfg : ApiConfig) (timestamp : String) (out : RequestOutcome) :
    CheckResult :=
  let base : CheckResult :=
    { name := cfg.name.getD "Unknown API"
      url := cfg.url
      timestamp := timestamp
      status := "unknown"
      response_time := none
      status_code := none
      error := none
      response_hash := none }
  match out with
  | .timeout => { base with status := "down", error := some "Request timeout" }
  | .connectionError =>
    { base with status := "down", error := some "Connection error" }
  | .otherFailure d => { base with status := "error", error := some d }
  | .response code elapsed_s body =>
    let expected := cfg.expected_status.getD 200
    let r1 := { base with
                  response_time := some (round2 (elapsed_s * 1000))
                  status_code := some code }
    let r2 :=
      if code = expected then { r1 with status := "up" }
      else { r1 with
               status := "error"
               error := some ("Unexpected status code: " ++ toString code) }
    if cfg.check_response_structure.getD false then
      { r2 with response_hash := some (get_response_hash body) }
    else r2

/-- Python `s.replace(' ', '_')`: every space becomes an underscore. -/
def replaceSpaces (s : String) : String :=
  String.mk (s.data.map (fun c => if c = ' ' then '_' else c))

/-- Python `s.lower()`, character by character. -/
def strLower (s : String) : String := String.mk (s.data.map Char.toLower)

/-- The log path derived by `APIMonitor.log_result` (monitor.py line 115):
`logs/` plus the endpoint name with every space replaced by an underscore,
lowercased, plus `.log`. -/
def log_result_file_name (name : String) : String :=
  "logs/" ++ strLower (replaceSpaces name) ++ ".log"

/-- The log path derived by `LogAnalyzer.load_logs` (analyzer.py line 20),
written from that source line independently of `log_result_file_name`. -/
def load_logs_file_name (api_name : String) : String :=
  "logs/" ++ strLower (replaceSpaces api_name) ++ ".log"

/-- The dict returned by `LogAnalyzer.calculate_uptime`. -/
structure UptimeReport where
  uptime : ℚ
  total_checks : ℕ
  up_count : ℕ
  down_count : ℕ
deriving DecidableEq, Repr

/-- Models `LogAnalyzer.calculate_uptime` (analyzer.py lines 35-51),
including the early return for an empty list and the redundant
`if total > 0` guard. -/
def calculate_uptime (logs : List CheckResult) : UptimeReport :=
  if logs = [] then ⟨0, 0, 0, 0⟩
  else
    let total := logs.length
    let up_count := logs.countP (fun l => l.status == "up")
    let down_count := logs.countP (fun l => l.status == "down")
    let uptime : ℚ :=
      if 0 < total then ((up_count : ℚ) / (total : ℚ)) * 100 else 0
    ⟨round2 uptime, total, up_count, down_count⟩

/-- Models `LogAnalyzer.calculate_avg_response_time` (analyzer.py lines
53-60).  The comprehension's guard `if log.get('response_time')` is Python
truthiness: it keeps exactly the records whose response time is present and
non-zero. -/
def calculate_avg_response_time (logs : List CheckResult) : ℚ :=
  let response_times := logs.filterMap (fun l =>
    match l.response_time with
    | some v => if v = 0 then none else some v
    | none => none)
  if response_times = [] then 0
  else round2 (response_times.sum / (response_times.length : ℚ))

/-- One entry of the incident list built by `LogAnalyzer.get_incidents`.
The source reads `log.get('error', 'Unknown error')`; the `error` key is
always present in a logged record (absent values serialize as `null`, not as
a missing key), so the dict-level default never fires and the field is the
record's `error` value. -/
structure Incident where
  timestamp : String
  status : String
  error : Option String
deriving DecidableEq, Repr

/-- Models `LogAnalyzer.get_incidents` (analyzer.py lines 62-74): the
records with status `down` or `error`, in input order, reduced to
timestamp/status/error. -/
def get_incidents (logs : List CheckResult) : List Incident :=
  logs.filterMap (fun l =>
    if l.status = "down" ∨ l.status = "error" then
      some ⟨l.timestamp, l.status, l.error⟩
    else none)

/-- The JSON values that can appear on a log line (the input language of
`json.loads` as used by `LogAnalyzer.load_logs`). -/
inductive Json where
  | null
  | bool (b : Bool)
  | num (q : ℚ)
  | str (s : String)
  | arr (elems : List Json)
  | obj (fields : List (String × Json))
deriving Repr

/-- JSON whitespace. -/
def isJsonWs (c : Char) : Bool :=
  c = ' ' ∨ c = '\t' ∨ c = '\n' ∨ c = '\r'

/-- Drop leading JSON whitespace. -/
def skipWs : List Char → List Char
  | [] => []
  | c :: cs => if isJsonWs c then skipWs cs else c :: cs

/-- Value of one hex digit. -/
def hexVal (c : Char) : Option ℕ :=
  if '0' ≤ c ∧ c ≤ '9' then some (c.toNat - 48)
  else if 'a' ≤ c ∧ c ≤ 'f' then some (c.toNat - 87)
  else if 'A' ≤ c ∧ c ≤ 'F' then some (c.toNat - 70)
  else none

/-- Parse the body of a JSON string after its opening quote: the decoded
characters and the remaining input.  Handles the standard escapes and
`\uXXXX` (surrogate pairs are decoded as two separate code units, which no
theorem below exercises). -/
def parseStrChars : ℕ → List Char → Option (List Char × List Char)
  | 0, _ => none
  | _ + 1, [] => none
  | fuel + 1, c :: cs =>
    if c = '"' then some ([], cs)
    else if c = '\\' then
      match cs with
      | [] => none
      | e :: rest =>
        if e = 'u' then
          match rest with
          | h1 :: h2 :: h3 :: h4 :: rest2 =>
            match hexVal h1, hexVal h2, hexVal h3, hexVal h4 with
            | some a, some b, some c2, some d =>
              match parseStrChars fuel rest2 with
              | some (s, r) =>
                some (Char.ofNat (((a * 16 + b) * 16 + c2) * 16 + d) :: s, r)
              | none => none
            | _, _, _, _ => none
          | _ => none
        else
          let ch : Option Char :=
            if e = '"' then some '"'
            else if e = '\\' then some '\\'
            else if e = '/' then some '/'
            else if e = 'n' then some '\n'
            else if e = 't' then some '\t'
            else if e = 'r' then some '\r'
            else if e = 'b' then some (Char.ofNat 8)
            else if e = 'f' then some (Char.ofNat 12)
            else none
          match ch with
          | some ch2 =>
            match parseStrChars fuel rest with
            | some (s, r) => some (ch2 :: s, r)
            | none => none
          | none => none
    else if c.toNat < 32 then none
    else
      match parseStrChars fuel cs with
      | some (s, r) => some (c :: s, r)
      | none => none

/-- Greedily read decimal digits. -/
def parseDigits : List Char → List ℕ × List Char
  | [] => ([], [])
  | c :: cs =>
    if c.isDigit then
      let p := parseDigits cs
      ((c.toNat - 48) :: p.1, p.2)
    else ([], c :: cs)

/-- Digits to the natural number they denote. -/
def digitsToNat (ds : List ℕ) : ℕ := ds.foldl (fun a d => a * 10 + d) 0

/-- Parse a JSON number (sign, integer part, optional fraction, optional
exponent) into an exact rational. -/
def parseNumber (cs : List Char) : Option (ℚ × List Char) :=
  let sint : Bool × List Char :=
    match cs with
    | '-' :: r => (true, r)
    | _ => (false, cs)
  let p1 := parseDigits sint.2
  if p1.1 = [] then none
  else
    let ip : ℚ := (digitsToNat p1.1 : ℚ)
    let fracStep : Option (ℚ × List Char) :=
      match p1.2 with
      | '.' :: r =>
        let p2 := parseDigits r
        if p2.1 = [] then none
        else some (ip + (digitsToNat p2.1 : ℚ) / ((10 : ℚ) ^ p2.1.length), p2.2)
      | _ => some (ip, p1.2)
    match fracStep with
    | none => none
    | some (v1, cs3) =>
      let expStep : Option (ℚ × List Char) :=
        match cs3 with
        | e :: r =>
          if e = 'e' ∨ e = 'E' then
            let sexp : ℤ × List Char :=
              match r with
              | '+' :: r2 => (1, r2)
              | '-' :: r2 => (-1, r2)
              | _ => (1, r)
            let p3 := parseDigits sexp.2
            if p3.1 = [] then none
            else some (v1 * (10 : ℚ) ^ (sexp.1 * (digitsToNat p3.1 : ℤ)), p3.2)
          else some (v1, cs3)
        | [] => some (v1, cs3)
      match expStep with
      | none => none
      | some (v2, cs5) => some (if sint.1 then -v2 else v2, cs5)

mutual

/-- Parse one JSON value (recursive descent; the fuel argument bounds the
nesting depth and is chosen larger than the input length at the top
entry point). -/
def parseValue : ℕ → List Char → Option (Json × List Char)
  | 0, _ => none
  | fuel + 1, cs =>
    match skipWs cs with
    | [] => none
    | c :: r =>
      if c = '{' then
        match skipWs r with
        | '}' :: r1 => some (.obj [], r1)
        | r1 =>
          match parseMembers fuel r1 with
          | some (ms, r2) => some (.obj ms, r2)
          | none => none
      else if c = '[' then
        match skipWs r with
        | ']' :: r1 => some (.arr [], r1)
        | r1 =>
          match parseElems fuel r1 with
          | some (xs, r2) => some (.arr xs, r2)
          | none => none
      else if c = '"' then
        match parseStrChars (r.length + 1) r with
        | some (scs, r1) => some (.str (String.mk scs), r1)
        | none => none
      else if c = 'n' then
        match r with
        | 'u' :: 'l' :: 'l' :: r1 => some (.null, r1)
        | _ => none
      else if c = 't' then
        match r with
        | 'r' :: 'u' :: 'e' :: r1 => some (.bool true, r1)
        | _ => none
      else if c = 'f' then
        match r with
        | 'a' :: 'l' :: 's' :: 'e' :: r1 => some (.bool false, r1)
        | _ => none
      else
        match parseNumber (c :: r) with
        | some (q, r1) => some (.num q, r1)
        | none => none

/-- Parse one or more `"key": value` members followed by `}`. -/
def parseMembers : ℕ → List Char → Option (List (String × Json) × List Char)
  | 0, _ => none
  | fuel + 1, cs =>
    match skipWs cs with
    | '"' :: r =>
      match parseStrChars (r.length + 1) r with
      | some (kcs, r1) =>
        match skipWs r1 with
        | ':' :: r2 =>
          match parseValue fuel r2 with
          | some (v, r3) =>
            match skipWs r3 with
            | ',' :: r4 =>
              match parseMembers fuel r4 with
              | some (ms, r5) => some ((String.mk kcs, v) :: ms, r5)
              | none => none
            | '}' :: r4 => some ([(String.mk kcs, v)], r4)
            | _ => none
          | none => none
        | _ => none
      | none => none
    | _ => none

/-- Parse one or more array elements followed by `]`. -/
def parseElems : ℕ → List Char → Option (List Json × List Char)
  | 0, _ => none
  | fuel + 1, cs =>
    match parseValue fuel cs with
    | some (v, r) =>
      match skipWs r with
      | ',' :: r1 =>
        match parseElems fuel r1 with
        | some (xs, r2) => some (v :: xs, r2)
        | none => none
      | ']' :: r1 => some ([v], r1)
      | _ => none
    | none => none

end

/-- Models `json.loads(line.strip())` on one log line: parse a single JSON
value, allowing surrounding whitespace (which also absorbs the `.strip()`)
and requiring the rest of the line to be blank. -/
def parseJsonLine (s : String) : Option Json :=
  match parseValue (s.length + 1) s.toList with
  | some (j, rest) => if skipWs rest = [] then some j else none
  | none => none

/-- Models the read loop of `LogAnalyzer.load_logs` (analyzer.py lines
25-33): each line is parsed independently; a line whose parse fails is
skipped (`except json.JSONDecodeError: continue`) and the loop goes on. -/
def loadLogs : List String → List Json
  | [] => []
  | line :: rest =>
    match parseJsonLine line with
    | some j => j :: loadLogs rest
    | none => loadLogs rest

/-- Models `LogAnalyzer.load_logs` including the missing-file guard
(analyzer.py lines 22-23): `none` models an absent log file and yields the
empty record list. -/
def loadLogsFile : Option (List String) → List Json
  | none => []
  | some lines => loadLogs lines

/-- Python dict lookup on a parsed JSON object: with duplicate keys,
`json.loads` keeps the last occurrence. -/
def lookupLast : List (String × Json) → String → Option Json
  | [], _ => none
  | (k, v) :: rest, key =>
    match lookupLast rest key with
    | some r => some r
    | none => if k = key then some v else none

/-- A JSON value read where the analyzer expects a string. -/
def asString : Json → Option String
  | .str s => some s
  | _ => none

/-- A JSON value read where the analyzer expects a string or `null`. -/
def asOptString : Json → Option (Option String)
  | .null => some none
  | .str s => some (some s)
  | _ => none

/-- A JSON value read where the analyzer expects a number or `null`. -/
def asOptNum : Json → Option (Option ℚ)
  | .null => some none
  | .num q => some (some q)
  | _ => none

/-- A JSON value read where the analyzer expects an integer or `null`. -/
def asOptInt : Json → Option (Option ℤ)
  | .null => some none
  | .num q => if q.den = 1 then some (some q.num) else none
  | _ => none

/-- A parsed log line viewed as a Check Result record: the eight keys the
Result Logger writes (`json.dumps(result)`), with the types the analyzer's
field accesses assume.  `none` models a line whose JSON value does not have
the record shape. -/
def toRecord (j : Json) : Option CheckResult :=
  match j with
  | .obj fields => do
    let name ← lookupLast fields "name" >>= asString
    let url ← lookupLast fields "url" >>= asString
    let timestamp ← lookupLast fields "timestamp" >>= asString
    let status ← lookupLast fields "status" >>= asString
    let response_time ← lookupLast fields "response_time" >>= asOptNum
    let status_code ← lookupLast fields "status_code" >>= asOptInt
    let error ← lookupLast fields "error" >>= asOptString
    let response_hash ← lookupLast fields "response_hash" >>= asOptString
    pure ⟨name, url, timestamp, status, response_time, status_code, error,
          response_hash⟩
  | _ => none

/-! ## Helper lemmas -/

lemma lookupState_updState (st : ApiStates) (n h : String) :
    lookupState (updState st n h) n = some h := by
  induction st with
  | nil => simp [updState, lookupState]
  | cons p rest ih =>
    by_cases hp : p.1 = n
    · simp [updState, hp, lookupState]
    · simp [updState, hp, lookupState, ih]

lemma detect_changes_stores (st : ApiStates) (n h : String) :
    lookupState (detect_changes st n (some h)).2 n = some h := by
  unfold detect_changes
  cases hl : lookupState st n with
  | none => simpa using lookupState_updState st n h
  | some last =>
    by_cases hc : last ≠ "" ∧ last ≠ h <;>
      simp [hc, lookupState_updState]

/-! ## Claim theorems -/

/-- C2 counterexample: the empty string is a present fingerprint (it is not
`None`), yet after it is stored as the baseline, a later differing
fingerprint is reported as unchanged — `detect_changes` returns `false`
although the current fingerprint `"x"` differs from the stored `""`,
because the source's truthiness test `if last_hash and ...` treats the
stored empty string as falsy. -/
theorem detect_changes_empty_fingerprint_cex :
    (detect_changes [] "api" (some "")).2 = [("api", "")] ∧
    ("x" : String) ≠ "" ∧
    (detect_changes [("api", "")] "api" (some "x")).1 = false := by
  refine ⟨rfl, by decide, rfl⟩

/-- C2 (amended): for every sequence of change-detector calls starting from
fresh state: a call with an absent fingerprint returns false and mutates no
state; the first call for an endpoint with a present fingerprint returns
false and stores that fingerprint; every later call with a present
fingerprint returns true exactly when the stored last fingerprint is
non-empty and differs from the current fingerprint (a stored empty
fingerprint never reports a change); in every present-fingerprint case the
stored state equals the current fingerprint after the call; and two
consecutive differing fingerprints, the first of which is non-empty, report
exactly one change, on the second call. -/
theorem detect_changes_spec (st : ApiStates) (n : String) :
    (detect_changes st n none = (false, st)) ∧
    (∀ h, lookupState st n = none →
      detect_changes st n (some h) = (false, updState st n h)) ∧
    (∀ h last, lookupState st n = some last →
      detect_changes st n (some h)
        = (decide (last ≠ "" ∧ last ≠ h), updState st n h)) ∧
    (∀ h, lookupState (detect_changes st n (some h)).2 n = some h) ∧
    (∀ a b, a ≠ "" → a ≠ b →
      (detect_changes [] n (some a)).1 = false ∧
      (detect_changes (detect_changes [] n (some a)).2 n (some b)).1 = true) := by
  refine ⟨rfl, ?_, ?_, ?_, ?_⟩
  · intro h hl
    simp [detect_changes, hl]
  · intro h last hl
    by_cases hc : last ≠ "" ∧ last ≠ h <;> simp [detect_changes, hl, hc]
  · intro h
    exact detect_changes_stores st n h
  · intro a b ha hab
    have h1 : detect_changes [] n (some a) = (false, [(n, a)]) := by
      simp [detect_changes, lookupState, updState]
    refine ⟨by simp [h1], ?_⟩
    rw [h1]
    simp [detect_changes, lookupState, updState, ha,
      fun h : a = b => hab h]

/-- C2 witness: the amended characterization evaluated at a concrete stored
state and fingerprint. -/
theorem detect_changes_spec_witness :
    detect_changes [("api", "abc")] "api" (some "xyz")
      = (true, [("api", "xyz")]) := by
  have h := (detect_changes_spec [("api", "abc")] "api").2.2.1 "xyz" "abc" rfl
  rw [h]; decide

/-- C9: the log filename derived by `log_result` and the one derived by
`load_logs` agree for every endpoint name: `logs/` plus the name with each
space replaced by an underscore and then lowercased, plus `.log` — so
analyzing an endpoint name reads exactly the file its Check Results were
appended to.  The concrete conjuncts exhibit the replacement and the
lowercasing. -/
theorem log_file_name_agree :
    (∀ name : String, log_result_file_name name = load_logs_file_name name) ∧
    log_result_file_name "My Test API" = "logs/my_test_api.log" ∧
    load_logs_file_name "My Test API" = "logs/my_test_api.log" := by
  refine ⟨fun _ => rfl, ?_, ?_⟩ <;> decide

/-- C1 counterexample: a Check Result with status `up` whose response time
is populated with the value 0 produces no alert at all (Python's
`if response_time:` is false for 0), contradicting the claimed "exactly one
latency-tier alert ... one or two alerts in total" for `up` results. -/
theorem analyze_result_zero_rt_cex :
    (CheckResult.mk "API" "u" "t" "up" (some 0) (some 200) none none).status
        = "up" ∧
    (CheckResult.mk "API" "u" "t" "up" (some 0) (some 200) none
        none).response_time = some 0 ∧
    (analyze_result ⟨none, none⟩ []
      (CheckResult.mk "API" "u" "t" "up" (some 0) (some 200) none none)).1
        = [] := by
  refine ⟨rfl, rfl, rfl⟩


/-- C1 (amended): a result with status `down` produces exactly one alert, at
level critical with the source's DOWN message, and never a latency alert
even when its response time is populated; a result with status `error`
produces exactly one warning alert; a result with status `up` and a
populated non-zero response time produces exactly one latency-tier alert
(critical if responseTime > critical threshold, else warning if
responseTime > warning threshold, else an info healthy alert) plus at most
one additional warning change alert — one or two alerts in total; an `up`
result whose response time is absent or zero produces no latency alert,
only at most the warning change alert. -/
theorem analyze_result_alert_spec (th : Thresholds) (st : ApiStates)
    (r : CheckResult) :
    (r.status = "down" →
      (analyze_result th st r).1
        = [("🔴 " ++ r.name ++ " is DOWN! Error: " ++ pyStr r.error,
            "critical")]) ∧
    (r.status = "error" →
      (analyze_result th st r).1
        = [("⚠️  " ++ r.name ++ " returned an error: " ++ pyStr r.error,
            "warning")]) ∧
    (r.status = "up" →
      (∀ rt, r.response_time = some rt → rt ≠ 0 →
        ∃ rest, (analyze_result th st r).1
            = (if th.response_time_critical.getD 5000 < rt then
                [("🐌 " ++ r.name ++ " is VERY SLOW! Response time: "
                    ++ showRat rt ++ "ms", "critical")]
               else if th.response_time_warning.getD 2000 < rt then
                [("⏱️  " ++ r.name ++ " is slow. Response time: "
                    ++ showRat rt ++ "ms", "warning")]
               else
                [("✅ " ++ r.name ++ " is healthy. Response time: "
                    ++ showRat rt ++ "ms", "info")]) ++ rest
          ∧ rest.length ≤ 1
          ∧ ∀ a ∈ rest,
              a = ("🔄 " ++ r.name ++ " response structure has CHANGED!",
                   "warning")) ∧
      ((r.response_time = none ∨ r.response_time = some 0) →
        (analyze_result th st r).1.length ≤ 1 ∧
        ∀ a ∈ (analyze_result th st r).1,
          a = ("🔄 " ++ r.name ++ " response structure has CHANGED!",
               "warning"))) := by
  refine ⟨?_, ?_, ?_⟩
  · intro h
    simp [analyze_result, h]
  · intro h
    simp [analyze_result, h]
  · intro hup
    constructor
    · intro rt hrt hne
      cases hh : r.response_hash with
      | none =>
        refine ⟨[], ?_, by simp, by simp⟩
        simp [analyze_result, hup, hrt, hh, hne]
      | some h =>
        by_cases he : h = ""
        · refine ⟨[], ?_, by simp, by simp⟩
          simp [analyze_result, hup, hrt, hh, hne, he]
        · cases hd : (detect_changes st r.name (some h)).1 with
          | false =>
            refine ⟨[], ?_, by simp, by simp⟩
            simp [analyze_result, hup, hrt, hh, hne, he, hd]
          | true =>
            refine ⟨[("🔄 " ++ r.name ++ " response structure has CHANGED!",
                "warning")], ?_, by simp, by simp⟩
            simp [analyze_result, hup, hrt, hh, hne, he, hd]
    · intro hrt
      have hlat :
          (match r.response_time with
            | some rt =>
              if rt = 0 then ([] : List Alert)
              else
                if th.response_time_critical.getD 5000 < rt then
                  [("🐌 " ++ r.name ++ " is VERY SLOW! Response time: "
                      ++ showRat rt ++ "ms", "critical")]
                else if th.response_time_warning.getD 2000 < rt then
                  [("⏱️  " ++ r.name ++ " is slow. Response time: "
                      ++ showRat rt ++ "ms", "warning")]
                else
                  [("✅ " ++ r.name ++ " is healthy. Response time: "
                      ++ showRat rt ++ "ms", "info")]
            | none => ([] : List Alert)) = [] := by
        rcases hrt with h0 | h0 <;> simp [h0]
      cases hh : r.response_hash with
      | none =>
        simp [analyze_result, hup, hh, hlat]
      | some h =>
        by_cases he : h = ""
        · simp [analyze_result, hup, hh, he, hlat]
        · cases hd : (detect_changes st r.name (some h)).1 with
          | false => simp [analyze_result, hup, hh, he, hd, hlat]
          | true => simp [analyze_result, hup, hh, he, hd, hlat]

/-- C1 witness: the amended claim evaluated on a concrete `down` result. -/
theorem analyze_result_alert_spec_witness :
    (analyze_result ⟨none, none⟩ []
      (CheckResult.mk "API" "u" "t" "down" none none
        (some "Request timeout") none)).1
      = [("🔴 API is DOWN! Error: Request timeout", "critical")] := by
  have h := (analyze_result_alert_spec ⟨none, none⟩ []
    (CheckResult.mk "API" "u" "t" "down" none none
      (some "Request timeout") none)).1 rfl
  simpa using h

/-- C3 counterexample: a Check Result with status `error` that carries a
response fingerprint (reachable: `check_api` attaches a fingerprint to any
received response when shape-tracking is enabled, also on an unexpected
status code) leaves the fingerprint state untouched, because
`analyze_result` only consults the change detector inside its
`status == 'up'` branch: after processing, the state holds no entry for the
endpoint at all. -/
theorem fingerprint_state_error_status_cex :
    check_api ⟨some "API", "u", none, some true⟩ "t"
        (.response 503 (12/1000) "body")
      = CheckResult.mk "API" "u" "t" "error" (some 12) (some 503)
          (some "Unexpected status code: 503")
          (some (get_response_hash "body")) ∧
    (CheckResult.mk "API" "u" "t" "error" (some 12) (some 503)
        (some "Unexpected status code: 503")
        (some (get_response_hash "body"))).response_hash
      = some (get_response_hash "body") ∧
    (analyze_result ⟨none, none⟩ []
      (CheckResult.mk "API" "u" "t" "error" (some 12) (some 503)
        (some "Unexpected status code: 503")
        (some (get_response_hash "body")))).2 = [] ∧
    lookupState (analyze_result ⟨none, none⟩ []
      (CheckResult.mk "API" "u" "t" "error" (some 12) (some 503)
        (some "Unexpected status code: 503")
        (some (get_response_hash "body")))).2 "API" = none := by
  refine ⟨?_, rfl, rfl, rfl⟩
  simp only [check_api, CheckResult.mk.injEq, Option.getD]
  norm_num [round2, roundHalfEven]
  decide

/-- C3 (amended): the in-memory fingerprint state entry for an endpoint is
created/updated to the carried fingerprint exactly when `analyze_result`
processes a result with status `up` carrying a present non-empty
fingerprint; a result with any other status, an absent fingerprint, or an
empty fingerprint leaves the whole state unchanged. -/
theorem fingerprint_state_spec (th : Thresholds) (st : ApiStates)
    (r : CheckResult) :
    (∀ h, r.response_hash = some h → r.status = "up" → h ≠ "" →
      lookupState (analyze_result th st r).2 r.name = some h) ∧
    (r.status ≠ "up" → (analyze_result th st r).2 = st) ∧
    (r.response_hash = none → (analyze_result th st r).2 = st) ∧
    (r.response_hash = some "" → (analyze_result th st r).2 = st) := by
  refine ⟨?_, ?_, ?_, ?_⟩
  · intro h hh hup hne
    cases hd : (detect_changes st r.name (some h)).1 with
    | false =>
      have : (analyze_result th st r).2 = (detect_changes st r.name (some h)).2 := by
        simp [analyze_result, hup, hh, hne, hd]
      rw [this]
      exact detect_changes_stores st r.name h
    | true =>
      have : (analyze_result th st r).2 = (detect_changes st r.name (some h)).2 := by
        simp [analyze_result, hup, hh, hne, hd]
      rw [this]
      exact detect_changes_stores st r.name h
  · intro hns
    by_cases h1 : r.status = "down"
    · simp [analyze_result, h1]
    · by_cases h2 : r.status = "error"
      · simp [analyze_result, h1, h2]
      · simp [analyze_result, h1, h2, hns]
  · intro hh
    by_cases h1 : r.status = "down"
    · simp [analyze_result, h1]
    · by_cases h2 : r.status = "error"
      · simp [analyze_result, h1, h2]
      · by_cases h3 : r.status = "up"
        · simp [analyze_result, h1, h2, h3, hh]
        · simp [analyze_result, h1, h2, h3]
  · intro hh
    by_cases h1 : r.status = "down"
    · simp [analyze_result, h1]
    · by_cases h2 : r.status = "error"
      · simp [analyze_result, h1, h2]
      · by_cases h3 : r.status = "up"
        · simp [analyze_result, h1, h2, h3, hh]
        · simp [analyze_result, h1, h2, h3]

/-- C3 witness: the amended claim evaluated on a concrete `up` result
carrying fingerprint `"abc"`. -/
theorem fingerprint_state_spec_witness :
    lookupState (analyze_result ⟨none, none⟩ []
      (CheckResult.mk "API" "u" "t" "up" (some 50) (some 200) none
        (some "abc"))).2 "API" = some "abc" :=
  (fingerprint_state_spec ⟨none, none⟩ []
    (CheckResult.mk "API" "u" "t" "up" (some 50) (some 200) none
      (some "abc"))).1 "abc" rfl rfl (by decide)

/-! ## Rounding bounds and report helpers -/

lemma roundHalfEven_bounds (x : ℚ) :
    x - 1/2 ≤ (roundHalfEven x : ℚ) ∧ (roundHalfEven x : ℚ) ≤ x + 1/2 := by
  have h1 := Int.floor_le x
  have h2 := Int.lt_floor_add_one x
  unfold roundHalfEven
  split_ifs with ha hb hc <;> constructor <;> push_cast <;> linarith

lemma round2_eq_100_le {v : ℚ} (h : round2 v = 100) : 19999/200 ≤ v := by
  have hb := (roundHalfEven_bounds (v * 100)).2
  have : (roundHalfEven (v * 100) : ℚ) = 10000 := by
    have := h
    unfold round2 at this
    field_simp at this
    exact_mod_cast this
  linarith

lemma round2_eq_0_le {v : ℚ} (h : round2 v = 0) : v ≤ 1/200 := by
  have hb := (roundHalfEven_bounds (v * 100)).1
  have : (roundHalfEven (v * 100) : ℚ) = 0 := by
    have := h
    unfold round2 at this
    field_simp at this
    exact_mod_cast this
  linarith

lemma countP_replicate {α : Type} (p : α → Bool) (n : ℕ) (a : α) :
    List.countP p (List.replicate n a) = if p a then n else 0 := by
  induction n with
  | zero => simp
  | succ n ih =>
    by_cases hp : p a <;>
      simp [List.replicate_succ, List.countP_cons, ih, hp]

lemma calculate_uptime_fields (logs : List CheckResult) :
    (calculate_uptime logs).total_checks = logs.length ∧
    (calculate_uptime logs).up_count
      = logs.countP (fun l => l.status == "up") ∧
    (calculate_uptime logs).down_count
      = logs.countP (fun l => l.status == "down") := by
  by_cases h : logs = [] <;> simp [calculate_uptime, h]

lemma calculate_uptime_uptime (logs : List CheckResult) (hne : logs ≠ []) :
    (calculate_uptime logs).uptime
      = round2 ((logs.countP (fun l => l.status == "up") : ℚ)
          / (logs.length : ℚ) * 100) := by
  simp [calculate_uptime, hne, List.length_pos.mpr hne]

/-- A concrete `up` log record used in witnesses and counterexamples. -/
def upRec : CheckResult :=
  ⟨"API", "u", "t1", "up", some 100, some 200, none, none⟩

/-- A concrete `down` log record used in witnesses and counterexamples. -/
def downRec : CheckResult :=
  ⟨"API", "u", "t2", "down", none, none, some "Connection error", none⟩

/-- A concrete `error` log record used in witnesses and counterexamples. -/
def errRec : CheckResult :=
  ⟨"API", "u", "t3", "error", some 10, some 503,
   some "Unexpected status code: 503", none⟩

/-- C4 counterexample: both directions of the claimed equivalences fail on
large logs because of the rounding to two decimals — 39999 `up` records
plus one `down` record give uptime exactly 100 although not every record is
`up`, and one `up` record among 39999 `down` records gives uptime exactly 0
although an `up` record is present. -/
theorem uptime_iff_rounding_cex :
    (calculate_uptime (List.replicate 39999 upRec ++ [downRec])).uptime
        = 100 ∧
    downRec ∈ List.replicate 39999 upRec ++ [downRec] ∧
    downRec.status ≠ "up" ∧
    (calculate_uptime (upRec :: List.replicate 39999 downRec)).uptime = 0 ∧
    upRec ∈ upRec :: List.replicate 39999 downRec ∧
    upRec.status = "up" := by
  have hlenA : (List.replicate 39999 upRec ++ [downRec]).length = 40000 := by
    rw [List.length_append, List.length_replicate]
    rfl
  have hne1 : List.replicate 39999 upRec ++ [downRec] ≠ [] :=
    List.ne_nil_of_length_pos (by rw [hlenA]; norm_num)
  have hA : List.countP (fun l => l.status == "up")
      (List.replicate 39999 upRec ++ [downRec]) = 39999 := by
    rw [List.countP_append, countP_replicate]
    norm_num [upRec, downRec, List.countP_cons, List.countP_nil]
    decide
  have hB : List.countP (fun l => l.status == "up")
      (upRec :: List.replicate 39999 downRec) = 1 := by
    rw [List.countP_cons, countP_replicate]
    norm_num [upRec, downRec]
    decide
  have hlenB : (upRec :: List.replicate 39999 downRec).length = 40000 := by
    rw [List.length_cons, List.length_replicate]
  refine ⟨?_, List.mem_append_right _ (List.mem_singleton_self _), by decide,
    ?_, List.mem_cons_self _ _, by decide⟩
  · rw [calculate_uptime_uptime _ hne1, hA, hlenA]
    norm_num [round2, roundHalfEven]
  · rw [calculate_uptime_uptime _ (List.cons_ne_nil _ _), hB, hlenB]
    norm_num [round2, roundHalfEven]

/-- C4 (amended): for every list of fewer than 20000 parsed log records, the
computed uptime percentage equals 100 if and only if the list is non-empty
and every record has status `up`, and equals 0 if and only if no record has
status `up` (including the empty list).  The bound is forced by the rounding
to two decimals: on logs of 20000 or more records a single non-`up` (resp.
`up`) record can be rounded away, as the counterexample shows. -/
theorem uptime_iff_small_log (logs : List CheckResult)
    (hsmall : logs.length < 20000) :
    ((calculate_uptime logs).uptime = 100 ↔
      (logs ≠ [] ∧ ∀ r ∈ logs, r.status = "up")) ∧
    ((calculate_uptime logs).uptime = 0 ↔ ∀ r ∈ logs, r.status ≠ "up") := by
  by_cases hne : logs = []
  · subst hne
    constructor
    · simp only [calculate_uptime, if_pos rfl]
      norm_num
    · simp only [calculate_uptime, if_pos rfl]
      norm_num
  · have hT : 0 < logs.length := List.length_pos.mpr hne
    have hTQ : (0 : ℚ) < (logs.length : ℚ) := by exact_mod_cast hT
    have hu : logs.countP (fun l => l.status == "up") ≤ logs.length :=
      List.countP_le_length _
    have hup := calculate_uptime_uptime logs hne
    have hall : (∀ r ∈ logs, r.status = "up") ↔
        logs.countP (fun l => l.status == "up") = logs.length := by
      rw [List.countP_eq_length]
      simp
    have hnoneup : (∀ r ∈ logs, r.status ≠ "up") ↔
        logs.countP (fun l => l.status == "up") = 0 := by
      rw [List.countP_eq_zero]
      simp
    constructor
    · rw [hup]
      constructor
      · intro h
        refine ⟨hne, hall.mpr ?_⟩
        have h1 := round2_eq_100_le h
        rw [div_mul_eq_mul_div, le_div_iff₀ hTQ] at h1
        have h2 : (19999 : ℚ) * (logs.length : ℚ)
            ≤ 20000 * (logs.countP (fun l => l.status == "up") : ℚ) := by
          linarith
        have h3 : 19999 * logs.length
            ≤ 20000 * logs.countP (fun l => l.status == "up") := by
          exact_mod_cast h2
        omega
      · rintro ⟨-, hup2⟩
        have hcount := hall.mp hup2
        rw [hcount, div_self (ne_of_gt hTQ)]
        norm_num [round2, roundHalfEven]
    · rw [hup]
      constructor
      · intro h
        refine hnoneup.mpr ?_
        have h1 := round2_eq_0_le h
        rw [div_mul_eq_mul_div, div_le_iff₀ hTQ] at h1
        have h2 : (20000 : ℚ) * (logs.countP (fun l => l.status == "up") : ℚ)
            ≤ (logs.length : ℚ) := by linarith
        have h3 : 20000 * logs.countP (fun l => l.status == "up")
            ≤ logs.length := by exact_mod_cast h2
        omega
      · intro h
        rw [hnoneup.mp h]
        norm_num [round2, roundHalfEven]

/-- C4 witness: the amended equivalences evaluated on a one-record log. -/
theorem uptime_iff_small_log_witness :
    (calculate_uptime [upRec]).uptime = 100 :=
  (uptime_iff_small_log [upRec] (by decide)).1.mpr ⟨by decide, by decide⟩

/-- C5: for every list of parsed log records the report fields are
uptime = round(100 × upCount / totalChecks, 2) (0 for the empty list),
totalChecks = number of records, upCount = number of `up` records,
downCount = number of `down` records; an empty or missing log yields the
zero-valued report rather than an error; and 8 `up` plus 2 `down` records
yield uptime 80.0, totalChecks 10, upCount 8, downCount 2. -/
theorem calculate_uptime_spec :
    (∀ logs : List CheckResult,
      (calculate_uptime logs).uptime
          = (if logs = [] then 0
             else round2 (100 * (logs.countP (fun l => l.status == "up") : ℚ)
                 / (logs.length : ℚ))) ∧
      (calculate_uptime logs).total_checks = logs.length ∧
      (calculate_uptime logs).up_count
          = logs.countP (fun l => l.status == "up") ∧
      (calculate_uptime logs).down_count
          = logs.countP (fun l => l.status == "down")) ∧
    calculate_uptime [] = ⟨0, 0, 0, 0⟩ ∧
    loadLogsFile none = [] ∧
    calculate_uptime (List.replicate 8 upRec ++ List.replicate 2 downRec)
      = ⟨80, 10, 8, 2⟩ := by
  refine ⟨?_, rfl, rfl, ?_⟩
  · intro logs
    refine ⟨?_, (calculate_uptime_fields logs).1,
      (calculate_uptime_fields logs).2.1, (calculate_uptime_fields logs).2.2⟩
    by_cases h : logs = []
    · simp [h, calculate_uptime]
    · rw [if_neg h, calculate_uptime_uptime logs h]
      congr 1
      ring
  · have hE : List.replicate 8 upRec ++ List.replicate 2 downRec
        = [upRec, upRec, upRec, upRec, upRec, upRec, upRec, upRec,
           downRec, downRec] := rfl
    rw [hE]
    simp only [calculate_uptime, List.countP_cons, List.countP_nil, upRec,
      downRec, List.length_cons, List.length_nil]
    simp
    norm_num [round2, roundHalfEven]

/-- The specification's description of `avgResponseTime`, written from the
spec's words for comparison with the implementation model: the mean of the
response time over exactly the records whose response time value is present
and non-zero, rounded to two decimals, and 0 when no such record exists. -/
def avg_response_time_by_spec (logs : List CheckResult) : ℚ :=
  let sel := logs.filter (fun l =>
    decide (l.response_time ≠ none ∧ l.response_time ≠ some 0))
  if sel = [] then 0
  else round2 ((sel.map (fun l => l.response_time.getD 0)).sum
      / (sel.length : ℚ))

/-- A concrete `up` record with response time 200. -/
def rec200 : CheckResult := ⟨"API", "u", "t4", "up", some 200, some 200, none, none⟩

/-- A concrete `up` record with response time 300. -/
def rec300 : CheckResult := ⟨"API", "u", "t5", "up", some 300, some 200, none, none⟩

/-- C6: for every list of parsed log records, `calculate_avg_response_time`
equals the mean of the response time over exactly the records whose
response time value is present and non-zero, rounded to two decimals (0
when no such record exists); and records with response times
[100, 200, 300] give 200. -/
theorem avg_response_time_spec :
    (∀ logs : List CheckResult,
      calculate_avg_response_time logs = avg_response_time_by_spec logs) ∧
    calculate_avg_response_time [upRec, rec200, rec300] = 200 := by
  constructor
  · intro logs
    unfold calculate_avg_response_time avg_response_time_by_spec
    have key : logs.filterMap (fun l =>
        match l.response_time with
        | some v => if v = 0 then none else some v
        | none => none)
      = (logs.filter (fun l =>
          decide (l.response_time ≠ none ∧ l.response_time ≠ some 0))).map
            (fun l => l.response_time.getD 0) := by
      induction logs with
      | nil => rfl
      | cons a rest ih =>
        cases ha : a.response_time with
        | none => simp [List.filterMap_cons, List.filter_cons, ha, ih]
        | some v =>
          by_cases hv : v = 0
          · simp [List.filterMap_cons, List.filter_cons, ha, hv, ih]
          · simp [List.filterMap_cons, List.filter_cons, ha, hv, ih]
    rw [key]
    simp [List.map_eq_nil_iff]
  · simp only [calculate_avg_response_time, List.filterMap_cons,
      List.filterMap_nil, upRec, rec200, rec300]
    simp
    norm_num [round2, roundHalfEven]

lemma roundHalfEven_mono {x y : ℚ} (h : x ≤ y) :
    roundHalfEven x ≤ roundHalfEven y := by
  rcases eq_or_lt_of_le h with rfl | hlt
  · exact le_refl _
  by_contra hc
  have hc' : roundHalfEven y + 1 ≤ roundHalfEven x :=
    Int.add_one_le_iff.mpr (lt_of_not_le hc)
  have hcast : (roundHalfEven y : ℚ) + 1 ≤ (roundHalfEven x : ℚ) := by
    exact_mod_cast hc'
  have bx := (roundHalfEven_bounds x).2
  have hy := (roundHalfEven_bounds y).1
  linarith

lemma round2_mono {x y : ℚ} (h : x ≤ y) : round2 x ≤ round2 y := by
  unfold round2
  have h1 : roundHalfEven (x * 100) ≤ roundHalfEven (y * 100) :=
    roundHalfEven_mono (by linarith)
  have h2 : (roundHalfEven (x * 100) : ℚ) ≤ (roundHalfEven (y * 100) : ℚ) := by
    exact_mod_cast h1
  linarith

lemma countP_up_add_down_le (l : List CheckResult) :
    l.countP (fun x => x.status == "up")
      + l.countP (fun x => x.status == "down") ≤ l.length := by
  induction l with
  | nil => simp
  | cons a rest ih =>
    rw [List.countP_cons, List.countP_cons, List.length_cons]
    by_cases h1 : a.status = "up" <;> by_cases h2 : a.status = "down"
    · rw [h1] at h2
      exact absurd h2 (by decide)
    · simp [beq_iff_eq, h1, h2]
      omega
    · simp [beq_iff_eq, h1, h2]
      omega
    · simp [beq_iff_eq, h1, h2]
      omega

/-- C10: downCount counts exactly the records with status `down`; appending
a record with a non-`up`, non-`down` status (such as `error`) increments
totalChecks while leaving upCount and downCount unchanged, makes
upCount + downCount strictly less than totalChecks, puts the record (when
its status is `error`) into the incident list, and can only lower the
uptime percentage — strictly lowering the unrounded ratio whenever some
`up` record is present. -/
theorem down_count_only_down_spec (logs : List CheckResult) (r : CheckResult)
    (hu : r.status ≠ "up") (hd : r.status ≠ "down") :
    (calculate_uptime (logs ++ [r])).total_checks
        = (calculate_uptime logs).total_checks + 1 ∧
    (calculate_uptime (logs ++ [r])).up_count
        = (calculate_uptime logs).up_count ∧
    (calculate_uptime (logs ++ [r])).down_count
        = (calculate_uptime logs).down_count ∧
    (∀ l : List CheckResult,
      (calculate_uptime l).down_count
          = l.countP (fun x => x.status == "down") ∧
      (calculate_uptime l).up_count + (calculate_uptime l).down_count
          ≤ (calculate_uptime l).total_checks) ∧
    ((calculate_uptime (logs ++ [r])).up_count
        + (calculate_uptime (logs ++ [r])).down_count
        < (calculate_uptime (logs ++ [r])).total_checks) ∧
    (r.status = "error" →
      (⟨r.timestamp, r.status, r.error⟩ : Incident)
        ∈ get_incidents (logs ++ [r])) ∧
    ((calculate_uptime (logs ++ [r])).uptime
        ≤ (calculate_uptime logs).uptime) ∧
    (0 < (calculate_uptime logs).up_count →
      ((calculate_uptime (logs ++ [r])).up_count : ℚ)
          / ((calculate_uptime (logs ++ [r])).total_checks : ℚ) * 100
        < ((calculate_uptime logs).up_count : ℚ)
          / ((calculate_uptime logs).total_checks : ℚ) * 100) := by
  obtain ⟨ftA, fuA, fdA⟩ := calculate_uptime_fields (logs ++ [r])
  obtain ⟨ftB, fuB, fdB⟩ := calculate_uptime_fields logs
  have hcu : (logs ++ [r]).countP (fun x => x.status == "up")
      = logs.countP (fun x => x.status == "up") := by
    rw [List.countP_append]
    simp [beq_iff_eq, hu]
  have hcd : (logs ++ [r]).countP (fun x => x.status == "down")
      = logs.countP (fun x => x.status == "down") := by
    rw [List.countP_append]
    simp [beq_iff_eq, hd]
  have hlen : (logs ++ [r]).length = logs.length + 1 := by simp
  refine ⟨?_, ?_, ?_, ?_, ?_, ?_, ?_, ?_⟩
  · rw [ftA, ftB, hlen]
  · rw [fuA, fuB, hcu]
  · rw [fdA, fdB, hcd]
  · intro l
    refine ⟨(calculate_uptime_fields l).2.2, ?_⟩
    rw [(calculate_uptime_fields l).2.1, (calculate_uptime_fields l).2.2,
      (calculate_uptime_fields l).1]
    exact countP_up_add_down_le l
  · rw [fuA, fdA, ftA, hcu, hcd, hlen]
    have := countP_up_add_down_le logs
    omega
  · intro herr
    have hsplit : get_incidents (logs ++ [r])
        = get_incidents logs ++ get_incidents [r] := by
      unfold get_incidents
      exact List.filterMap_append _ _ _
    rw [hsplit]
    apply List.mem_append_right
    simp [get_incidents, herr]
  · by_cases hne : logs = []
    · subst hne
      simp only [List.nil_append]
      have h2 := calculate_uptime_uptime [r] (by simp)
      have hc0 : List.countP (fun x => x.status == "up") [r] = 0 := by
        simp [beq_iff_eq, hu]
      rw [h2, hc0]
      norm_num [calculate_uptime, round2, roundHalfEven]
    · have hA := calculate_uptime_uptime (logs ++ [r]) (by simp)
      have hB := calculate_uptime_uptime logs hne
      rw [hA, hB, hcu, hlen]
      apply round2_mono
      have hT : (0 : ℚ) < (logs.length : ℚ) := by
        exact_mod_cast List.length_pos.mpr hne
      have hT1 : (0 : ℚ) < ((logs.length + 1 : ℕ) : ℚ) := by
        exact_mod_cast Nat.succ_pos _
      have hu0 : (0 : ℚ)
          ≤ (logs.countP (fun x => x.status == "up") : ℚ) := by positivity
      rw [div_mul_eq_mul_div, div_mul_eq_mul_div,
        div_le_div_iff₀ hT1 hT]
      push_cast
      nlinarith
  · intro hpos
    rw [fuB] at hpos
    have hne : logs ≠ [] := by
      intro h
      subst h
      simp at hpos
    rw [fuA, fuB, ftA, ftB, hcu, hlen]
    have hT : (0 : ℚ) < (logs.length : ℚ) := by
      exact_mod_cast List.length_pos.mpr hne
    have hT1 : (0 : ℚ) < ((logs.length + 1 : ℕ) : ℚ) := by
      exact_mod_cast Nat.succ_pos _
    have hupos : (0 : ℚ)
        < (logs.countP (fun x => x.status == "up") : ℚ) := by
      exact_mod_cast hpos
    rw [div_mul_eq_mul_div, div_mul_eq_mul_div, div_lt_div_iff₀ hT1 hT]
    push_cast
    nlinarith

/-- C10 witness: the theorem evaluated on a one-`up`-record log with a
concrete `error` record appended. -/
theorem down_count_only_down_spec_witness :
    (calculate_uptime [upRec, errRec]).up_count
        + (calculate_uptime [upRec, errRec]).down_count
        < (calculate_uptime [upRec, errRec]).total_checks ∧
    (⟨errRec.timestamp, errRec.status, errRec.error⟩ : Incident)
      ∈ get_incidents [upRec, errRec] :=
  ⟨(down_count_only_down_spec [upRec] errRec (by decide) (by decide)).2.2.2.2.1,
   (down_count_only_down_spec [upRec] errRec (by decide)
      (by decide)).2.2.2.2.2.1 rfl⟩

/-- C8: the probe is total over request outcomes (it never raises — every
outcome maps to a status value): a timeout gives status `down` with error
"Request timeout" and a connection failure gives status `down` with error
"Connection error", with response time, status code and fingerprint absent;
any other exception gives status `error` carrying the exception's
description; a received response with the expected status code gives status
`up` with response time and status code recorded; a received response with
any other status code gives status `error` with message
"Unexpected status code: {code}" — in particular 503 against expected 200. -/
theorem check_api_spec (cfg : ApiConfig) (ts : String) :
    (check_api cfg ts .timeout
        = { name := cfg.name.getD "Unknown API", url := cfg.url,
            timestamp := ts, status := "down", response_time := none,
            status_code := none, error := some "Request timeout",
            response_hash := none }) ∧
    (check_api cfg ts .connectionError
        = { name := cfg.name.getD "Unknown API", url := cfg.url,
            timestamp := ts, status := "down", response_time := none,
            status_code := none, error := some "Connection error",
            response_hash := none }) ∧
    (∀ d, check_api cfg ts (.otherFailure d)
        = { name := cfg.name.getD "Unknown API", url := cfg.url,
            timestamp := ts, status := "error", response_time := none,
            status_code := none, error := some d, response_hash := none }) ∧
    (∀ code e body, code = cfg.expected_status.getD 200 →
      (check_api cfg ts (.response code e body)).status = "up" ∧
      (check_api cfg ts (.response code e body)).response_time
          = some (round2 (e * 1000)) ∧
      (check_api cfg ts (.response code e body)).status_code = some code ∧
      (check_api cfg ts (.response code e body)).error = none) ∧
    (∀ code e body, code ≠ cfg.expected_status.getD 200 →
      (check_api cfg ts (.response code e body)).status = "error" ∧
      (check_api cfg ts (.response code e body)).response_time
          = some (round2 (e * 1000)) ∧
      (check_api cfg ts (.response code e body)).error
          = some ("Unexpected status code: " ++ toString code)) ∧
    ((check_api ⟨some "API", "u", none, none⟩ "t"
        (.response 503 1 "")).status = "error" ∧
      (check_api ⟨some "API", "u", none, none⟩ "t"
        (.response 503 1 "")).error = some "Unexpected status code: 503") := by
  refine ⟨rfl, rfl, fun d => rfl, ?_, ?_, ?_, ?_⟩
  · intro code e body h
    by_cases hs : cfg.check_response_structure.getD false <;>
      simp [check_api, h, hs]
  · intro code e body h
    by_cases hs : cfg.check_response_structure.getD false <;>
      simp [check_api, h, hs]
  · rfl
  · decide

/-- C8 witness: the expected-status branch evaluated at a concrete
response. -/
theorem check_api_spec_witness :
    (check_api ⟨some "API", "u", none, none⟩ "t"
      (RequestOutcome.response 200 1 "")).status = "up" :=
  ((check_api_spec ⟨some "API", "u", none, none⟩ "t").2.2.2.1 200 1 ""
    (by decide)).1

/-- C7: loading considers exactly the lines that parse, skipping each
unparseable line individually (the per-line `try/except ... continue`), so
a corrupt line between two valid lines never aborts the read, and the two
valid lines are both counted in the resulting report. -/
theorem load_logs_skip_spec :
    (∀ lines : List String, loadLogs lines = lines.filterMap parseJsonLine) ∧
    (∀ l1 lb l2 : String, ∀ j1 j2 : Json, ∀ r1 r2 : CheckResult,
      parseJsonLine l1 = some j1 → toRecord j1 = some r1 →
      parseJsonLine lb = none →
      parseJsonLine l2 = some j2 → toRecord j2 = some r2 →
      loadLogs [l1, lb, l2] = [j1, j2] ∧
      (calculate_uptime [r1, r2]).total_checks = 2) := by
  constructor
  · intro lines
    induction lines with
    | nil => rfl
    | cons a rest ih =>
      cases h : parseJsonLine a <;>
        simp [loadLogs, h, ih, List.filterMap_cons]
  · intro l1 lb l2 j1 j2 r1 r2 h1 hr1 hb h2 hr2
    refine ⟨?_, ?_⟩
    · simp [loadLogs, h1, hb, h2]
    · rw [(calculate_uptime_fields [r1, r2]).1]
      rfl

/-- A valid log line as written by the Result Logger. -/
def goodLine1 : String := "\x7b\"name\": \"My API\", \"url\": \"https://example.com/a\", \"timestamp\": \"2026-01-01T00:00:00\", \"status\": \"up\", \"response_time\": 123, \"status_code\": 200, \"error\": null, \"response_hash\": \"abc\"\x7d"

/-- A line that is not parseable as JSON. -/
def corruptLine : String := "CORRUPT ###"

/-- A second valid log line. -/
def goodLine2 : String := "\x7b\"name\": \"My API\", \"url\": \"https://example.com/a\", \"timestamp\": \"2026-01-01T00:01:00\", \"status\": \"down\", \"response_time\": null, \"status_code\": null, \"error\": \"Request timeout\", \"response_hash\": null\x7d"

/-- The parse of `goodLine1`. -/
def goodJson1 : Json :=
  .obj [("name", .str "My API"), ("url", .str "https://example.com/a"),
        ("timestamp", .str "2026-01-01T00:00:00"), ("status", .str "up"),
        ("response_time", .num 123), ("status_code", .num 200),
        ("error", .null), ("response_hash", .str "abc")]

/-- The parse of `goodLine2`. -/
def goodJson2 : Json :=
  .obj [("name", .str "My API"), ("url", .str "https://example.com/a"),
        ("timestamp", .str "2026-01-01T00:01:00"), ("status", .str "down"),
        ("response_time", .null), ("status_code", .null),
        ("error", .str "Request timeout"), ("response_hash", .null)]

/-- The record extracted from `goodJson1`. -/
def goodRec1 : CheckResult :=
  ⟨"My API", "https://example.com/a", "2026-01-01T00:00:00", "up",
   some 123, some 200, none, some "abc"⟩

/-- The record extracted from `goodJson2`. -/
def goodRec2 : CheckResult :=
  ⟨"My API", "https://example.com/a", "2026-01-01T00:01:00", "down",
   none, none, some "Request timeout", none⟩

set_option maxRecDepth 100000 in
/-- C7 witness: a concrete corrupt line between two concrete valid log
lines — both valid lines load and are counted, the corrupt one is
skipped. -/
theorem load_logs_skip_spec_witness :
    loadLogs [goodLine1, corruptLine, goodLine2] = [goodJson1, goodJson2] ∧
    (calculate_uptime [goodRec1, goodRec2]).total_checks = 2 :=
  load_logs_skip_spec.2 goodLine1 corruptLine goodLine2 goodJson1 goodJson2
    goodRec1 goodRec2 rfl rfl rfl rfl rfl
